import Mathlib

/-!
Verification of the voice-analysis bot core (`src/bot/__init__.py`):
a shallow embedding of the command parser (`AnalyzeComponents.from_command`),
the ratio aggregator (`get_result_percentages`), the classification step
(`cmd_ml`), the pipeline composer (`process_audio`) and the reply-command
boundary (`cmd_reply` / `on_audio`), together with theorems that settle the
specified properties.

Modelling conventions:
* Python floats become `ℚ` (exact arithmetic; the spec phrases equalities
  "within floating-point tolerance", which hold exactly over `ℚ`).
* Python exceptions become an explicit `BotError` value: `AssertionError`
  (carrying its message string, `""` for a bare `assert`) models the
  exception-as-control-flow pattern — an `AssertionError` with a user-facing
  message is what the spec calls `EmptyResultError` / `UnauthorizedError` —
  and `ZeroDivisionError` / `IndexError` model the corresponding built-ins.
* Collaborator calls (segmentation model, renderers, Telegram sends) become
  entries of an `Event` trace; the segmentation model's output and the
  spectral step's outcome are parameters.
* Python's `str.lower` / `str.strip` / `str.split()[0]` are modelled by
  `pyLower` / `pyStrip` / `pyFirstToken` over the character list (ASCII
  semantics, which is what the command tokens use).
* The Python dict `durations` is modelled as an insertion-ordered
  association list (`List (String × ℚ)`), built exactly as the source does:
  a comprehension initialising every label to 0, an accumulation loop, a
  normalisation pass, and `.get` with default 0.
-/

deriving instance DecidableEq for Except

/-- Python `str.isspace` characters relevant to `str.strip` / `str.split`. -/
def pyIsSpace (c : Char) : Bool :=
  c = ' ' || c = '\t' || c = '\n' || c = '\x0d' || c = '\x0b' || c = '\x0c'

/-- ASCII lowering of one character, as Python `str.lower` acts on ASCII. -/
def pyCharLower (c : Char) : Char :=
  if 65 ≤ c.toNat ∧ c.toNat ≤ 90 then Char.ofNat (c.toNat + 32) else c

/-- Python `s.lower()` (ASCII fragment). -/
def pyLower (s : String) : String :=
  ⟨s.data.map pyCharLower⟩

/-- Python `s.strip()`: drop leading and trailing whitespace. -/
def pyStrip (s : String) : String :=
  ⟨((s.data.dropWhile pyIsSpace).reverse.dropWhile pyIsSpace).reverse⟩

/-- Python `s.split()[0]`: first maximal run of non-whitespace characters;
`none` when the string is empty or all whitespace (Python raises
`IndexError` there). -/
def pyFirstToken (s : String) : Option String :=
  match s.data.dropWhile pyIsSpace with
  | [] => none
  | c :: cs => some ⟨(c :: cs).takeWhile (fun a => ¬ pyIsSpace a)⟩

/-- Structure `AnalyzeComponents`: which aspects of the voice the bot should analyze
(`ml` = classification, `spect` = spectral, `stats` = statistics). -/
structure AnalyzeComponents where
  ml : Bool
  spect : Bool
  stats : Bool
deriving DecidableEq, Repr

/-- Parser `AnalyzeComponents.from_command` (source lines 37–48): lowercase and
strip the command token, then set each flag from the token. -/
def AnalyzeComponents.from_command (cmd : String) : AnalyzeComponents :=
  let cmd := pyStrip (pyLower cmd)
  let full := cmd == "analyze"
  { ml := full || (["ml"] : List String).contains cmd
  , spect := full || (["spectrogram", "formant", "pitch"] : List String).contains cmd
  , stats := full || (["stats"] : List String).contains cmd }

/-- One classified segment (`inaSpeechSegmenter.constants.ResultFrame`):
a label with start and end offsets in seconds.  `end` is a Lean keyword,
so the field is spelled `end_`. -/
structure ResultFrame where
  label : String
  start : ℚ
  end_ : ℚ
deriving DecidableEq, Repr

/-- Python error values that the bot code can produce. -/
inductive BotError where
  | assertionError (msg : String)
  | zeroDivisionError
  | indexError
deriving DecidableEq, Repr

/-- Observable collaborator calls made while serving one request. -/
inductive Event where
  | segmentCall
  | renderSegments
  | sendPhoto
  | spectStart
  | sendDocument
  | sendMessage (text : String)
deriving DecidableEq, Repr

/-- Total duration of a timeline: the running `total_dur` accumulator. -/
def totalDur : List ResultFrame → ℚ
  | [] => 0
  | f :: fs => (f.end_ - f.start) + totalDur fs

/-- Summed duration of the frames carrying one given label. -/
def labelSum (lab : String) : List ResultFrame → ℚ
  | [] => 0
  | f :: fs => (if f.label = lab then f.end_ - f.start else 0) + labelSum lab fs

/-- Dict lookup with default: Python `durations.get(k, dflt)`. -/
def alGet (m : List (String × ℚ)) (k : String) (dflt : ℚ) : ℚ :=
  match m with
  | [] => dflt
  | (k', v) :: rest => if k' = k then v else alGet rest k dflt

/-- One step of the dict comprehension `{f.label: 0 for f in result}`:
insert key `k` with value 0 unless already present. -/
def dictInsert0 (m : List (String × ℚ)) (k : String) : List (String × ℚ) :=
  if m.any (fun p => p.1 = k) then m else m ++ [(k, 0)]

/-- The dict comprehension `{f.label: 0 for f in result}`. -/
def initDurations (result : List ResultFrame) : List (String × ℚ) :=
  result.foldl (fun m f => dictInsert0 m f.label) []

/-- Update `durations[k] += v` on the association-list dict. -/
def upsertAdd (m : List (String × ℚ)) (k : String) (v : ℚ) : List (String × ℚ) :=
  match m with
  | [] => [(k, v)]
  | (k', v') :: rest =>
      if k' = k then (k', v' + v) :: rest else (k', v') :: upsertAdd rest k v

/-- The accumulation loop `for f in result: durations[f.label] += f.end - f.start`
starting from the zero-initialised dict. -/
def durationsLoop (result : List ResultFrame) : List (String × ℚ) :=
  result.foldl (fun m f => upsertAdd m f.label (f.end_ - f.start)) (initDurations result)

/-- Aggregator `get_result_percentages` (source lines 160–186).  Sums per-label and
total durations, normalises every dict entry by the total (Python raises
`ZeroDivisionError` at the first entry when the total is 0, i.e. exactly
when the dict is non-empty and the total is 0), then returns
`(%female, %male, 1 - %female - %male, %female-vs-female+male)` with the
last component guarded against a zero denominator. -/
def get_result_percentages (result : List ResultFrame) :
    Except BotError (ℚ × ℚ × ℚ × ℚ) :=
  let total_dur := totalDur result
  let durations := durationsLoop result
  if durations ≠ [] ∧ total_dur = 0 then
    Except.error BotError.zeroDivisionError
  else
    let durations := durations.map (fun p => (p.1, p.2 / total_dur))
    let f := alGet durations "female" 0
    let m := alGet durations "male" 0
    let fm_total := f + m
    let pf := if fm_total = 0 then 0 else f / fm_total
    Except.ok (f, m, 1 - f - m, pf)

/-- The user-facing message of the empty-result assertion in `cmd_ml`
(source line 70). -/
def mlEmptyMsg : String := "分析失败, 大概是音量太小或者时长太短吧, 再试试w"

/-- The user-facing message of the ownership assertion in `cmd_reply`
(source line 143). -/
def unauthorizedMsg : String := "只有自己能分析自己的音频哦 👀"

/-- Step `cmd_ml` (source lines 64–78), as a function of the segmentation
model's output: call the model, assert the timeline non-empty (the
spec's `EmptyResultError`), then render the segment overlay, aggregate
the percentages and send the captioned photo.  Returns the trace of
collaborator calls and the propagated error, if any. -/
def cmd_ml (timeline : List ResultFrame) : List Event × Option BotError :=
  if timeline.isEmpty then
    ([Event.segmentCall], some (BotError.assertionError mlEmptyMsg))
  else
    match get_result_percentages timeline with
    | Except.error e => ([Event.segmentCall, Event.renderSegments], some e)
    | Except.ok _ => ([Event.segmentCall, Event.renderSegments, Event.sendPhoto], none)

/-- Step `cmd_spect` (source lines 81–99): the whole step is collaborator work
(decode, spectrogram, feature extraction, render, send), so its outcome is
a parameter: `none` means success, `some e` a propagated collaborator
failure. -/
def cmd_spect (outcome : Option BotError) : List Event × Option BotError :=
  match outcome with
  | some e => ([Event.spectStart], some e)
  | none => ([Event.spectStart, Event.sendDocument], none)

/-- Composer `process_audio` (source lines 102–121): assert an audio payload is
attached, parse the command flags, then run the classification step and the
spectral step in order.  An exception raised by either step propagates
immediately — no later step runs after a failure. -/
def process_audio (cmd : String) (hasAudio : Bool) (timeline : List ResultFrame)
    (spectOutcome : Option BotError) : List Event × Option BotError :=
  if ¬ hasAudio then ([], some (BotError.assertionError ""))
  else
    let flags := AnalyzeComponents.from_command cmd
    let step1 := if flags.ml then cmd_ml timeline else ([], none)
    match step1.2 with
    | some e => (step1.1, some e)
    | none =>
        let step2 := if flags.spect then cmd_spect spectOutcome else ([], none)
        (step1.1 ++ step2.1, step2.2)

/-- The `except AssertionError` boundary of `cmd_reply` / `on_audio`
(source lines 147–149, 155–157): an `AssertionError` is swallowed and its
message sent to the user when non-empty; other errors propagate. -/
def handleAssertion (res : List Event × Option BotError) : List Event × Option BotError :=
  match res.2 with
  | some (BotError.assertionError msg) =>
      if msg = "" then (res.1, none) else (res.1 ++ [Event.sendMessage msg], none)
  | other => (res.1, other)

/-- The `try` body of `cmd_reply` (source lines 125–145): require a text,
take its first lowercased token, strip it, require a `!`/`/` marker, require
a recognised command, require audio on the replied-to message, require that
the requester owns that audio, then run `process_audio`. -/
def cmd_reply_body (text : Option String) (userId ownerId : Nat) (hasAudio : Bool)
    (timeline : List ResultFrame) (spectOutcome : Option BotError) :
    List Event × Option BotError :=
  match text with
  | none => ([], some (BotError.assertionError ""))
  | some t =>
    if t = "" then ([], some (BotError.assertionError ""))
    else
      match pyFirstToken (pyLower t) with
      | none => ([], some BotError.indexError)
      | some tok =>
        let cmd := pyStrip tok
        match cmd.data with
        | [] => ([], some BotError.indexError)
        | c :: rest =>
          if c = '!' ∨ c = '/' then
            let cmd2 : String := ⟨rest⟩
            if cmd2 ∈ (["analyze", "ml", "formant", "pitch", "stats"] : List String) then
              if hasAudio then
                if userId = ownerId then
                  process_audio cmd2 hasAudio timeline spectOutcome
                else ([], some (BotError.assertionError unauthorizedMsg))
              else ([], some (BotError.assertionError ""))
            else ([], some (BotError.assertionError ""))
          else ([], some (BotError.assertionError ""))

/-- Handler `cmd_reply` (source lines 124–149): the body wrapped in the
assertion-handling boundary. -/
def cmd_reply (text : Option String) (userId ownerId : Nat) (hasAudio : Bool)
    (timeline : List ResultFrame) (spectOutcome : Option BotError) :
    List Event × Option BotError :=
  handleAssertion (cmd_reply_body text userId ownerId hasAudio timeline spectOutcome)

/-- Handler `on_audio` (source lines 152–157): run the full `"analyze"` pipeline on
a directly received audio message, inside the same assertion boundary. -/
def on_audio (hasAudio : Bool) (timeline : List ResultFrame)
    (spectOutcome : Option BotError) : List Event × Option BotError :=
  handleAssertion (process_audio "analyze" hasAudio timeline spectOutcome)

/-- Is this trace event a user-facing text message? -/
def isUserMessage : Event → Bool
  | Event.sendMessage _ => true
  | _ => false

/-! ### Lemmas about the command parser -/

theorem from_command_ml_iff (s : String) :
    (AnalyzeComponents.from_command s).ml = true ↔
      (pyStrip (pyLower s) = "analyze" ∨ pyStrip (pyLower s) = "ml") := by
  simp [AnalyzeComponents.from_command]

theorem from_command_spect_iff (s : String) :
    (AnalyzeComponents.from_command s).spect = true ↔
      (pyStrip (pyLower s) = "analyze" ∨ pyStrip (pyLower s) = "spectrogram" ∨
        pyStrip (pyLower s) = "formant" ∨ pyStrip (pyLower s) = "pitch") := by
  simp [AnalyzeComponents.from_command]

theorem from_command_stats_iff (s : String) :
    (AnalyzeComponents.from_command s).stats = true ↔
      (pyStrip (pyLower s) = "analyze" ∨ pyStrip (pyLower s) = "stats") := by
  simp [AnalyzeComponents.from_command]

/-- The parser yields the all-false request exactly on tokens outside the
six recognised ones. -/
theorem from_command_eq_allFalse_iff (s : String) :
    AnalyzeComponents.from_command s = ⟨false, false, false⟩ ↔
      pyStrip (pyLower s) ∉
        (["analyze", "ml", "spectrogram", "formant", "pitch", "stats"] : List String) := by
  have hml := from_command_ml_iff s
  have hsp := from_command_spect_iff s
  have hst := from_command_stats_iff s
  rcases hfc : AnalyzeComponents.from_command s with ⟨a, b, c⟩
  rw [hfc] at hml hsp hst
  simp only [AnalyzeComponents.mk.injEq, List.mem_cons, List.mem_singleton,
    List.not_mem_nil, or_false]
  cases a <;> cases b <;> cases c <;> simp_all <;> tauto

/-! ### Lemmas about the duration dictionary -/

theorem upsertAdd_ne_nil (m : List (String × ℚ)) (k : String) (v : ℚ) :
    upsertAdd m k v ≠ [] := by
  match m with
  | [] => simp [upsertAdd]
  | (k', v') :: rest =>
      simp only [upsertAdd]
      split <;> simp

theorem foldl_upsertAdd_ne_nil (fs : List ResultFrame) (m : List (String × ℚ))
    (hm : m ≠ []) :
    fs.foldl (fun m f => upsertAdd m f.label (f.end_ - f.start)) m ≠ [] := by
  induction fs generalizing m with
  | nil => exact hm
  | cons f fs ih => exact ih _ (upsertAdd_ne_nil _ _ _)

theorem dictInsert0_ne_nil (m : List (String × ℚ)) (k : String) :
    dictInsert0 m k ≠ [] := by
  unfold dictInsert0
  split
  · rename_i h
    obtain ⟨x, hx, -⟩ := List.any_eq_true.mp h
    exact List.ne_nil_of_mem hx
  · rcases m with _ | ⟨p, rest⟩ <;> simp

theorem mem_dictInsert0 (m : List (String × ℚ)) (k : String) (p : String × ℚ)
    (hp : p ∈ dictInsert0 m k) : p ∈ m ∨ p = (k, 0) := by
  unfold dictInsert0 at hp
  split at hp
  · exact Or.inl hp
  · rcases List.mem_append.mp hp with h | h
    · exact Or.inl h
    · simp at h; exact Or.inr (by simp [h])

theorem initDurations_cons_ne_nil (f : ResultFrame) (fs : List ResultFrame) :
    initDurations (f :: fs) ≠ [] := by
  have key : ∀ (gs : List ResultFrame) (m : List (String × ℚ)), m ≠ [] →
      gs.foldl (fun m g => dictInsert0 m g.label) m ≠ [] := by
    intro gs
    induction gs with
    | nil => intro m hm; exact hm
    | cons g gs ih => intro m _; exact ih _ (dictInsert0_ne_nil m g.label)
  unfold initDurations
  simp only [List.foldl_cons]
  exact key fs _ (dictInsert0_ne_nil [] f.label)

theorem durationsLoop_ne_nil (f : ResultFrame) (fs : List ResultFrame) :
    durationsLoop (f :: fs) ≠ [] := by
  unfold durationsLoop
  simp only [List.foldl_cons]
  exact foldl_upsertAdd_ne_nil _ _ (upsertAdd_ne_nil _ _ _)

theorem alGet_upsertAdd (m : List (String × ℚ)) (k j : String) (v : ℚ) :
    alGet (upsertAdd m k v) j 0 = alGet m j 0 + (if k = j then v else 0) := by
  induction m with
  | nil => simp [upsertAdd, alGet]
  | cons p rest ih =>
      obtain ⟨k', v'⟩ := p
      by_cases hk : k' = k
      · subst hk
        simp only [upsertAdd, if_pos rfl, alGet]
        by_cases hj : k' = j
        · simp [hj]
        · simp [hj]
      · simp only [upsertAdd, if_neg hk, alGet]
        by_cases hj : k' = j
        · have : ¬ k = j := fun h => hk (hj.trans h.symm)
          simp [hj, this]
        · simp [hj, ih]

theorem alGet_foldl_upsertAdd (fs : List ResultFrame) (m : List (String × ℚ))
    (j : String) :
    alGet (fs.foldl (fun m f => upsertAdd m f.label (f.end_ - f.start)) m) j 0 =
      alGet m j 0 + labelSum j fs := by
  induction fs generalizing m with
  | nil => simp [labelSum]
  | cons f fs ih =>
      simp only [List.foldl_cons, labelSum]
      rw [ih, alGet_upsertAdd]
      ring

theorem initDurations_values_zero (fs : List ResultFrame) :
    ∀ p ∈ initDurations fs, p.2 = 0 := by
  have key : ∀ (gs : List ResultFrame) (m : List (String × ℚ)),
      (∀ p ∈ m, p.2 = 0) →
      ∀ p ∈ gs.foldl (fun m g => dictInsert0 m g.label) m, p.2 = 0 := by
    intro gs
    induction gs with
    | nil => intro m hm; exact hm
    | cons g gs ih =>
        intro m hm
        refine ih _ ?_
        intro p hp
        rcases mem_dictInsert0 m g.label p hp with h | h
        · exact hm p h
        · simp [h]
  exact key fs [] (by simp)

theorem alGet_of_values_zero (m : List (String × ℚ)) (j : String)
    (hm : ∀ p ∈ m, p.2 = 0) : alGet m j 0 = 0 := by
  induction m with
  | nil => simp [alGet]
  | cons p rest ih =>
      obtain ⟨k', v'⟩ := p
      simp only [alGet]
      by_cases hj : k' = j
      · simpa [hj] using hm (k', v') (by simp)
      · exact (if_neg hj).trans (ih fun q hq => hm q (by simp [hq]))

theorem alGet_durationsLoop (result : List ResultFrame) (j : String) :
    alGet (durationsLoop result) j 0 = labelSum j result := by
  unfold durationsLoop
  rw [alGet_foldl_upsertAdd,
    alGet_of_values_zero _ _ (initDurations_values_zero result), zero_add]

theorem alGet_map_div (m : List (String × ℚ)) (j : String) (t : ℚ) :
    alGet (m.map (fun p => (p.1, p.2 / t))) j 0 = alGet m j 0 / t := by
  induction m with
  | nil => simp [alGet]
  | cons p rest ih =>
      obtain ⟨k', v'⟩ := p
      simp only [List.map_cons, alGet]
      by_cases hj : k' = j
      · simp [hj]
      · simp [hj, ih]

/-- Evaluation of the aggregator on any timeline with nonzero total
duration: every component is the per-label duration sum normalised by the
total; "other" is the complement; the final ratio is guarded. -/
theorem get_result_percentages_eq (result : List ResultFrame)
    (ht : totalDur result ≠ 0) :
    get_result_percentages result =
      Except.ok
        (labelSum "female" result / totalDur result,
         labelSum "male" result / totalDur result,
         1 - labelSum "female" result / totalDur result
           - labelSum "male" result / totalDur result,
         if labelSum "female" result / totalDur result
              + labelSum "male" result / totalDur result = 0 then 0
         else (labelSum "female" result / totalDur result) /
              (labelSum "female" result / totalDur result
                + labelSum "male" result / totalDur result)) := by
  unfold get_result_percentages
  rw [if_neg (by exact fun h => ht h.2)]
  simp only [alGet_map_div, alGet_durationsLoop]

/-- Evaluation of the aggregator on a non-empty timeline whose total
duration is 0: the normalisation loop divides by zero. -/
theorem get_result_percentages_zero_total (f : ResultFrame) (fs : List ResultFrame)
    (ht : totalDur (f :: fs) = 0) :
    get_result_percentages (f :: fs) = Except.error BotError.zeroDivisionError := by
  unfold get_result_percentages
  rw [if_pos ⟨durationsLoop_ne_nil f fs, ht⟩]

/-! ### Claim theorems about the ratio aggregator -/

/-- C1 counterexample: contrary to the claim, the aggregation itself does
not fail on the empty (zero-total) timeline — `get_result_percentages []`
returns `(0, 0, 1, 0)` successfully. -/
theorem claim_C1_counterexample :
    get_result_percentages ([] : List ResultFrame) = Except.ok (0, 0, 1, 0) := by
  norm_num [get_result_percentages, durationsLoop, initDurations, dictInsert0,
    upsertAdd, alGet, totalDur]

/-- C1 (amended): on the empty timeline the aggregation succeeds with
`(0, 0, 1, 0)`; on a non-empty timeline with zero total duration it fails,
but with `ZeroDivisionError` rather than the user-facing empty-result
failure; that failure (the assertion carrying the "audio too quiet or too
short" message) is raised by the caller `cmd_ml`, before aggregation, and
only for the empty timeline. -/
theorem claim_C1_zero_total_behavior :
    get_result_percentages ([] : List ResultFrame) = Except.ok (0, 0, 1, 0) ∧
    (∀ (f : ResultFrame) (fs : List ResultFrame), totalDur (f :: fs) = 0 →
      get_result_percentages (f :: fs) = Except.error BotError.zeroDivisionError) ∧
    cmd_ml [] = ([Event.segmentCall], some (BotError.assertionError mlEmptyMsg)) ∧
    mlEmptyMsg ≠ "" := by
  refine ⟨?_, ?_, by decide, by decide⟩
  · norm_num [get_result_percentages, durationsLoop, initDurations, dictInsert0,
      upsertAdd, alGet, totalDur]
  · intro f fs ht
    exact get_result_percentages_zero_total f fs ht

/-- C1 witness: a concrete non-empty, zero-total timeline on which the
aggregation fails with `ZeroDivisionError`. -/
theorem claim_C1_zero_total_behavior_witness :
    totalDur [(⟨"female", 3, 3⟩ : ResultFrame)] = 0 ∧
    get_result_percentages [(⟨"female", 3, 3⟩ : ResultFrame)] =
      Except.error BotError.zeroDivisionError := by
  constructor
  · norm_num [totalDur]
  · exact claim_C1_zero_total_behavior.2.1 ⟨"female", 3, 3⟩ [] (by norm_num [totalDur])

/-- C4: for every non-empty timeline of positive total duration the
aggregated ratios satisfy `female + male + other = 1`, with `other` the
complement `1 - female - male`, which equals the normalised total of all
non-female, non-male duration (every other label is folded into it). -/
theorem claim_C4_ratios_sum_to_one :
    ∀ tl : List ResultFrame, tl ≠ [] → 0 < totalDur tl →
      ∃ f m o pf, get_result_percentages tl = Except.ok (f, m, o, pf) ∧
        f + m + o = 1 ∧ o = 1 - f - m ∧
        o = (totalDur tl - labelSum "female" tl - labelSum "male" tl) / totalDur tl := by
  intro tl _ h2
  have ht : totalDur tl ≠ 0 := ne_of_gt h2
  refine ⟨_, _, _, _, get_result_percentages_eq tl ht, by ring, rfl, ?_⟩
  field_simp

/-- C4 witness: a concrete timeline containing a non-female/male label. -/
theorem claim_C4_ratios_sum_to_one_witness :
    ([(⟨"female", 0, 1⟩ : ResultFrame), ⟨"noise", 1, 4⟩] : List ResultFrame) ≠ [] ∧
    0 < totalDur [(⟨"female", 0, 1⟩ : ResultFrame), ⟨"noise", 1, 4⟩] ∧
    ∃ f m o pf,
      get_result_percentages [(⟨"female", 0, 1⟩ : ResultFrame), ⟨"noise", 1, 4⟩] =
        Except.ok (f, m, o, pf) ∧
      f + m + o = 1 ∧ o = 1 - f - m ∧
      o = (totalDur [(⟨"female", 0, 1⟩ : ResultFrame), ⟨"noise", 1, 4⟩]
            - labelSum "female" [(⟨"female", 0, 1⟩ : ResultFrame), ⟨"noise", 1, 4⟩]
            - labelSum "male" [(⟨"female", 0, 1⟩ : ResultFrame), ⟨"noise", 1, 4⟩])
          / totalDur [(⟨"female", 0, 1⟩ : ResultFrame), ⟨"noise", 1, 4⟩] := by
  refine ⟨by simp, by norm_num [totalDur], ?_⟩
  exact claim_C4_ratios_sum_to_one _ (by simp) (by norm_num [totalDur])

/-- C5: for every non-empty timeline of positive total duration the final
component equals `female / (female + male)` whenever that denominator is
nonzero, and equals exactly 0 when the female and male durations are both
0 — the guarded branch, never a division by zero. -/
theorem claim_C5_pf_guard :
    ∀ tl : List ResultFrame, tl ≠ [] → 0 < totalDur tl →
      ∃ f m o pf, get_result_percentages tl = Except.ok (f, m, o, pf) ∧
        (f + m ≠ 0 → pf = f / (f + m)) ∧
        (labelSum "female" tl = 0 ∧ labelSum "male" tl = 0 → pf = 0) := by
  intro tl _ h2
  have ht : totalDur tl ≠ 0 := ne_of_gt h2
  refine ⟨_, _, _, _, get_result_percentages_eq tl ht, ?_, ?_⟩
  · intro h
    rw [if_neg h]
  · rintro ⟨hf, hm⟩
    rw [hf, hm]
    norm_num

/-- C5 witness: a concrete timeline with neither female nor male frames,
on which the guarded branch returns 0. -/
theorem claim_C5_pf_guard_witness :
    ([(⟨"noise", 0, 3⟩ : ResultFrame)] : List ResultFrame) ≠ [] ∧
    0 < totalDur [(⟨"noise", 0, 3⟩ : ResultFrame)] ∧
    ∃ f m o pf,
      get_result_percentages [(⟨"noise", 0, 3⟩ : ResultFrame)] =
        Except.ok (f, m, o, pf) ∧
      (f + m ≠ 0 → pf = f / (f + m)) ∧
      (labelSum "female" [(⟨"noise", 0, 3⟩ : ResultFrame)] = 0 ∧
        labelSum "male" [(⟨"noise", 0, 3⟩ : ResultFrame)] = 0 → pf = 0) := by
  refine ⟨by simp, by norm_num [totalDur], ?_⟩
  exact claim_C5_pf_guard _ (by simp) (by norm_num [totalDur])

/-- C9: on the concrete timeline `[(female,0,6), (male,6,10), (other,10,12)]`
the total duration is 12 and the aggregation yields female = 1/2,
male = 1/3, other = 1/6 and female-vs-female+male = 3/5 = 0.6. -/
theorem claim_C9_scenario1 :
    totalDur [(⟨"female", 0, 6⟩ : ResultFrame), ⟨"male", 6, 10⟩, ⟨"other", 10, 12⟩] = 12 ∧
    get_result_percentages
      [(⟨"female", 0, 6⟩ : ResultFrame), ⟨"male", 6, 10⟩, ⟨"other", 10, 12⟩] =
      Except.ok (1/2, 1/3, 1/6, 3/5) := by
  constructor
  · norm_num [totalDur]
  · simp +decide only [get_result_percentages, durationsLoop, initDurations,
      dictInsert0, upsertAdd, alGet, totalDur, List.foldl, List.any, List.map]
    norm_num

/-- C10: on the empty frame list `get_result_percentages` returns exactly
`(0, 0, 1, 0)` — ratios 0, 0, complement 1, guarded final ratio 0 — and
raises no error: the normalisation loop runs over an empty dict and the
zero total is never used as a divisor. -/
theorem claim_C10_empty_returns :
    get_result_percentages ([] : List ResultFrame) = Except.ok (0, 0, 1, 0) := by
  norm_num [get_result_percentages, durationsLoop, initDurations, dictInsert0,
    upsertAdd, alGet, totalDur]

/-! ### Claim theorems about the command parser -/

/-- C3: the parser is a total pure function of the lowercased, stripped
token — `"analyze"` enables everything, `"ml"` only classification, each
of `"spectrogram"`/`"formant"`/`"pitch"` only the spectral component,
`"stats"` only statistics, anything else nothing — and in particular
`"analyze"`, `"ML"`, `" Stats "`, `"bogus"` parse to all-true,
classification-only, statistics-only, and all-false respectively. -/
theorem claim_C3_parse_mapping :
    (∀ s : String,
      ((AnalyzeComponents.from_command s).ml = true ↔
        (pyStrip (pyLower s) = "analyze" ∨ pyStrip (pyLower s) = "ml")) ∧
      ((AnalyzeComponents.from_command s).spect = true ↔
        (pyStrip (pyLower s) = "analyze" ∨ pyStrip (pyLower s) = "spectrogram" ∨
          pyStrip (pyLower s) = "formant" ∨ pyStrip (pyLower s) = "pitch")) ∧
      ((AnalyzeComponents.from_command s).stats = true ↔
        (pyStrip (pyLower s) = "analyze" ∨ pyStrip (pyLower s) = "stats"))) ∧
    (∀ s : String,
      pyStrip (pyLower s) ∉
        (["analyze", "ml", "spectrogram", "formant", "pitch", "stats"] : List String) →
      AnalyzeComponents.from_command s = ⟨false, false, false⟩) ∧
    AnalyzeComponents.from_command "analyze" = ⟨true, true, true⟩ ∧
    AnalyzeComponents.from_command "ML" = ⟨true, false, false⟩ ∧
    AnalyzeComponents.from_command " Stats " = ⟨false, false, true⟩ ∧
    AnalyzeComponents.from_command "bogus" = ⟨false, false, false⟩ := by
  refine ⟨?_, ?_, by decide, by decide, by decide, by decide⟩
  · intro s
    exact ⟨from_command_ml_iff s, from_command_spect_iff s, from_command_stats_iff s⟩
  · intro s hs
    exact (from_command_eq_allFalse_iff s).mpr hs

/-- C3 witness: the unrecognised-token clause applied at a concrete
token. -/
theorem claim_C3_parse_mapping_witness :
    pyStrip (pyLower "hello") ∉
      (["analyze", "ml", "spectrogram", "formant", "pitch", "stats"] : List String) ∧
    AnalyzeComponents.from_command "hello" = ⟨false, false, false⟩ := by
  exact ⟨by decide, claim_C3_parse_mapping.2.1 "hello" (by decide)⟩

/-- C8 counterexample: the token `"spectrogram"` is outside the claimed
five-token set yet does not parse to the all-false request. -/
theorem claim_C8_counterexample :
    AnalyzeComponents.from_command "spectrogram" ≠ ⟨false, false, false⟩ ∧
    "spectrogram" ∉ (["analyze", "ml", "formant", "pitch", "stats"] : List String) := by
  decide

/-- C8 (amended): the set of tokens on which the parser produces a
non-all-false request is exactly the six tokens `analyze`, `ml`,
`spectrogram`, `formant`, `pitch`, `stats` (case-insensitively, after
stripping); every token outside this set parses to the all-false no-op
request.  (The reply-command boundary additionally restricts its own
accepted tokens to the five without `spectrogram`.) -/
theorem claim_C8_command_surface :
    ∀ s : String,
      AnalyzeComponents.from_command s ≠ ⟨false, false, false⟩ ↔
        pyStrip (pyLower s) ∈
          (["analyze", "ml", "spectrogram", "formant", "pitch", "stats"] : List String) := by
  intro s
  rw [Ne, from_command_eq_allFalse_iff, not_not]

/-! ### Trace lemmas and claim theorems about the composer and boundary -/

theorem cmd_ml_fst_cases (tl : List ResultFrame) :
    (cmd_ml tl).1 = [Event.segmentCall] ∨
    (cmd_ml tl).1 = [Event.segmentCall, Event.renderSegments] ∨
    (cmd_ml tl).1 = [Event.segmentCall, Event.renderSegments, Event.sendPhoto] := by
  unfold cmd_ml
  split
  · left; rfl
  · rcases h : get_result_percentages tl with e | v <;> simp [h]

theorem spectStart_not_mem_cmd_ml (tl : List ResultFrame) :
    Event.spectStart ∉ (cmd_ml tl).1 := by
  rcases cmd_ml_fst_cases tl with h | h | h <;> rw [h] <;> decide

theorem sendDocument_not_mem_cmd_ml (tl : List ResultFrame) :
    Event.sendDocument ∉ (cmd_ml tl).1 := by
  rcases cmd_ml_fst_cases tl with h | h | h <;> rw [h] <;> decide

/-- When the classification flag is set and the classification step fails,
`process_audio` stops with that failure: its result is exactly the
classification step's trace and error. -/
theorem process_audio_step1_error (cmd : String) (tl : List ResultFrame)
    (so : Option BotError) (e : BotError)
    (hml : (AnalyzeComponents.from_command cmd).ml = true)
    (herr : (cmd_ml tl).2 = some e) :
    process_audio cmd true tl so = ((cmd_ml tl).1, some e) := by
  unfold process_audio
  rw [if_neg (by simp)]
  simp only [hml, if_true, herr]

/-- C2 counterexample: with the `"analyze"` command both flags are set and
the spectral step would succeed, yet after the classification step fails on
the empty timeline, the spectral step never runs — no spectral event
appears in the trace and the classification error is what propagates. -/
theorem claim_C2_counterexample :
    (AnalyzeComponents.from_command "analyze").ml = true ∧
    (AnalyzeComponents.from_command "analyze").spect = true ∧
    (cmd_ml ([] : List ResultFrame)).2 = some (BotError.assertionError mlEmptyMsg) ∧
    process_audio "analyze" true [] none =
      ([Event.segmentCall], some (BotError.assertionError mlEmptyMsg)) ∧
    Event.spectStart ∉ (process_audio "analyze" true [] none).1 ∧
    Event.sendDocument ∉ (process_audio "analyze" true [] none).1 := by
  decide

/-- C2 (amended): when both flags are set, a failure in the classification
step aborts `process_audio` — the error propagates from the whole pipeline
(to be caught by the calling boundary around the entire request, not per
step) and the spectral step is skipped: no spectral event is ever in the
trace. -/
theorem claim_C2_step1_failure_skips_step2 :
    ∀ (cmd : String) (tl : List ResultFrame) (so : Option BotError) (e : BotError),
      (AnalyzeComponents.from_command cmd).ml = true →
      (AnalyzeComponents.from_command cmd).spect = true →
      (cmd_ml tl).2 = some e →
      process_audio cmd true tl so = ((cmd_ml tl).1, some e) ∧
      Event.spectStart ∉ (process_audio cmd true tl so).1 ∧
      Event.sendDocument ∉ (process_audio cmd true tl so).1 := by
  intro cmd tl so e hml _ herr
  have hpa := process_audio_step1_error cmd tl so e hml herr
  refine ⟨hpa, ?_, ?_⟩ <;> rw [hpa]
  · exact spectStart_not_mem_cmd_ml tl
  · exact sendDocument_not_mem_cmd_ml tl

/-- C2 witness: the amended statement at the `"analyze"` command, empty
timeline, successful spectral collaborator. -/
theorem claim_C2_step1_failure_skips_step2_witness :
    (AnalyzeComponents.from_command "analyze").ml = true ∧
    (cmd_ml ([] : List ResultFrame)).2 = some (BotError.assertionError mlEmptyMsg) ∧
    process_audio "analyze" true [] none =
      ((cmd_ml ([] : List ResultFrame)).1, some (BotError.assertionError mlEmptyMsg)) := by
  refine ⟨by decide, by decide, ?_⟩
  exact (claim_C2_step1_failure_skips_step2 "analyze" [] none
    (BotError.assertionError mlEmptyMsg) (by decide) (by decide) (by decide)).1

/-- C6: when the segmentation model returns the empty timeline, the
classification step fails with the empty-result assertion carrying the
user-facing message, the renderer is never invoked, and the `"analyze"`
boundary turns this into exactly one user-facing failure message. -/
theorem claim_C6_empty_timeline :
    ∀ so : Option BotError,
      cmd_ml [] = ([Event.segmentCall], some (BotError.assertionError mlEmptyMsg)) ∧
      mlEmptyMsg ≠ "" ∧
      on_audio true [] so = ([Event.segmentCall, Event.sendMessage mlEmptyMsg], none) ∧
      Event.renderSegments ∉ (on_audio true [] so).1 ∧
      (on_audio true [] so).1.countP isUserMessage = 1 := by
  intro so
  have h : on_audio true [] so =
      ([Event.segmentCall, Event.sendMessage mlEmptyMsg], none) := rfl
  refine ⟨by decide, by decide, h, ?_, ?_⟩ <;> rw [h] <;> decide

/-- C6 witness: the boundary behaviour at a concrete spectral outcome. -/
theorem claim_C6_empty_timeline_witness :
    on_audio true [] none = ([Event.segmentCall, Event.sendMessage mlEmptyMsg], none) :=
  (claim_C6_empty_timeline none).2.2.1

/-- C7: a well-formed reply command (marker-prefixed recognised token,
audio attached) from a user who does not own the replied-to audio is
rejected with the single user-visible unauthorized message, and no
analysis runs: the trace holds no segmentation and no spectral event. -/
theorem claim_C7_unauthorized_rejection :
    ∀ (text : String) (uid oid : Nat) (tl : List ResultFrame) (so : Option BotError)
      (tok : String) (c : Char) (rest : List Char),
      pyFirstToken (pyLower text) = some tok →
      (pyStrip tok).data = c :: rest →
      (c = '!' ∨ c = '/') →
      (⟨rest⟩ : String) ∈ (["analyze", "ml", "formant", "pitch", "stats"] : List String) →
      uid ≠ oid →
      cmd_reply (some text) uid oid true tl so =
        ([Event.sendMessage unauthorizedMsg], none) ∧
      Event.segmentCall ∉ (cmd_reply (some text) uid oid true tl so).1 ∧
      Event.spectStart ∉ (cmd_reply (some text) uid oid true tl so).1 := by
  intro text uid oid tl so tok c rest h1 h2 h3 h4 h5
  have htext : text ≠ "" := by
    intro h
    subst h
    simp [pyLower, pyFirstToken] at h1
  have hbody : cmd_reply_body (some text) uid oid true tl so =
      ([], some (BotError.assertionError unauthorizedMsg)) := by
    simp only [cmd_reply_body]
    rw [if_neg htext]
    simp only [h1, h2]
    rw [if_pos h3, if_pos h4, if_pos trivial, if_neg h5]
  have hres : cmd_reply (some text) uid oid true tl so =
      ([Event.sendMessage unauthorizedMsg], none) := by
    unfold cmd_reply
    rw [hbody]
    decide
  refine ⟨hres, ?_, ?_⟩ <;> rw [hres] <;> decide

/-- C7 witness: a concrete reply command from a non-owner. -/
theorem claim_C7_unauthorized_rejection_witness :
    pyFirstToken (pyLower "/ml hello") = some "/ml" ∧
    (pyStrip "/ml").data = '/' :: ['m', 'l'] ∧
    (⟨['m', 'l']⟩ : String) ∈ (["analyze", "ml", "formant", "pitch", "stats"] : List String) ∧
    (1 : Nat) ≠ 2 ∧
    cmd_reply (some "/ml hello") 1 2 true [] none =
      ([Event.sendMessage unauthorizedMsg], none) := by
  refine ⟨by decide, by decide, by decide, by decide, ?_⟩
  exact (claim_C7_unauthorized_rejection "/ml hello" 1 2 [] none "/ml" '/' ['m', 'l']
    (by decide) (by decide) (by decide) (by decide) (by decide)).1
